import Mathlib

/-!
Verification development for the Smart-Summarizer repository.

The repository ships a React frontend (ScrapePanel, AskPanel, SummaryPanel,
ManagePanel) that POSTs JSON to a FastAPI backend.  The frontend sources are
embedded directly from `src/frontend/src/ui/panels/*.tsx`.  The backend
(Chunker, Embedder, VectorStore, Retriever, Synthesizer, JobRunner) is not in
the source tree; those components are modelled from the specification, with
each definition's doc comment naming what is modelled.
-/

namespace SmartSummarizer

/-! ## Frontend request embedding -/

/-- An HTTP request as issued by the frontend panels: method, path and the
header list passed to `fetch`. -/
structure HttpRequest where
  method : String
  path : String
  headers : List (String × String)
deriving DecidableEq, Repr

/-- JavaScript string truthiness, as used by `[url1, url2, url3].filter(Boolean)`
in ScrapePanel.tsx: the empty string is the only falsy string. -/
def jsTruthy (s : String) : Bool := !s.isEmpty

namespace ScrapePanel

/-- From ScrapePanel.tsx `submit`: `const urls = [url1, url2, url3].filter(Boolean)`. -/
def submitUrls (url1 url2 url3 : String) : List String :=
  [url1, url2, url3].filter jsTruthy

/-- The scrape request: `POST /scrape` with the tenant header and a JSON body
carrying the urls list. -/
structure ScrapeRequest where
  req : HttpRequest
  urls : List String
deriving DecidableEq, Repr

/-- The request ScrapePanel.tsx sends on submit (headers as in the source). -/
def scrapeHttpRequest (user : String) : HttpRequest :=
  ⟨"POST", "/scrape", [("Content-Type", "application/json"), ("X-User", user)]⟩

/-- From ScrapePanel.tsx `submit`: if no url field is truthy, set the message
`Please enter at least one URL.` and send nothing; otherwise POST the urls. -/
def submit (user url1 url2 url3 : String) : Option ScrapeRequest × Option String :=
  let urls := submitUrls url1 url2 url3
  if urls.isEmpty then (none, some "Please enter at least one URL.")
  else (some ⟨scrapeHttpRequest user, urls⟩, none)

end ScrapePanel

namespace ManagePanel

/-- From ManagePanel.tsx `rescrape`: `POST /rescrape/{id}` with the X-User header. -/
def rescrapeRequest (user : String) (id : Nat) : HttpRequest :=
  ⟨"POST", "/rescrape/" ++ toString id, [("X-User", user)]⟩

/-- From ManagePanel.tsx `remove`: `DELETE /pages/{id}` with the X-User header. -/
def removeRequest (user : String) (id : Nat) : HttpRequest :=
  ⟨"DELETE", "/pages/" ++ toString id, [("X-User", user)]⟩

/-- From ManagePanel.tsx `reset`: `fetch(API_URL + /reset-session, method POST)`
with no headers at all — in particular no X-User tenant header, unlike every
sibling call in the file. -/
def resetRequest : HttpRequest :=
  ⟨"POST", "/reset-session", []⟩

end ManagePanel

/-- Modelled from the spec: the tenant is identified by the caller-supplied
X-User key, defaulting to `default` when absent. -/
def effectiveTenant (r : HttpRequest) : String :=
  (r.headers.lookup "X-User").getD "default"

/-! ## Data model (spec section 3) -/

/-- Modelled from the spec: a Chunk row
`(page_id, tenant, sequence_index, text, vector, offset)`; vectors are modelled
as integer lists with an inner-product similarity. -/
structure Chunk where
  page_id : Nat
  tenant : String
  sequence_index : Nat
  text : String
  vector : List Int
  offset : Nat
deriving DecidableEq, Repr

/-- Modelled from the spec: a Page row (id, tenant, url, title). -/
structure Page where
  id : Nat
  tenant : String
  url : String
  title : String
deriving DecidableEq, Repr

/-- Modelled from the spec: the persistent store holding all tenants' pages and
chunks, chunk list kept in insertion order. -/
structure Store where
  pages : List Page
  chunks : List Chunk
deriving DecidableEq, Repr

/-- The empty store. -/
def emptyStore : Store := ⟨[], []⟩

/-- Modelled from the spec: `StoreError` (missing/empty tenant). -/
inductive StoreError
  | missingTenant
deriving DecidableEq, Repr

/-- A chunk submitted for insertion: text, embedding vector, character offset. -/
structure ChunkInput where
  text : String
  vector : List Int
  offset : Nat
deriving DecidableEq, Repr

/-- Inner product of two vectors. -/
def dot (u v : List Int) : Int := (List.zipWith (fun a b => a * b) u v).sum

/-- Does a chunk row belong to the given tenant and page? -/
def chunkKey (tenant : String) (pageId : Nat) (c : Chunk) : Bool :=
  c.tenant == tenant && c.page_id == pageId

/-- Rows created for an insertion: each input becomes a chunk of the given
tenant and page, sequence-indexed in input order. -/
def tagChunks (tenant : String) (pageId : Nat) (cws : List ChunkInput) : List Chunk :=
  cws.enum.map fun p => ⟨pageId, tenant, p.1, p.2.text, p.2.vector, p.2.offset⟩

/-- All chunks the store holds for a tenant's page. -/
def pageChunks (tenant : String) (pageId : Nat) (s : Store) : List Chunk :=
  s.chunks.filter (chunkKey tenant pageId)

namespace VectorStore

/-- Stable insertion of a scored chunk into a score-descending list (ties keep
the earlier, i.e. original insertion-order, element first). -/
def insertScored (x : Chunk × Int) : List (Chunk × Int) → List (Chunk × Int)
  | [] => [x]
  | y :: ys => if x.2 ≥ y.2 then x :: y :: ys else y :: insertScored x ys

/-- Stable sort of scored chunks by descending score. -/
def sortScored : List (Chunk × Int) → List (Chunk × Int)
  | [] => []
  | x :: xs => insertScored x (sortScored xs)

/-- Modelled from the spec: `query(tenant, vector, k, min_score?)` — rank the
tenant's chunks by inner-product similarity, optionally drop scores below
`min_score`, return up to `k`, ties broken by insertion order. -/
def query (tenant : String) (vector : List Int) (k : Nat) (min_score : Option Int)
    (s : Store) : List Chunk :=
  let cands := s.chunks.filter fun c => c.tenant == tenant
  let scored := cands.map fun c => (c, dot vector c.vector)
  let kept := match min_score with
    | some m => scored.filter fun p => m ≤ p.2
    | none => scored
  ((sortScored kept).take k).map Prod.fst

/-- Modelled from the spec: `insert(tenant, page_id, chunks_with_vectors)` —
append new rows, never overwriting; rejected with `StoreError` on an empty
tenant. -/
def insert (tenant : String) (pageId : Nat) (cws : List ChunkInput) (s : Store) :
    Except StoreError Store :=
  if tenant.isEmpty then .error .missingTenant
  else .ok { s with chunks := s.chunks ++ tagChunks tenant pageId cws }

/-- Modelled from the spec: `replace_page(tenant, page_id, chunks_with_vectors)`
— atomic swap: remove all prior chunks for the tenant's page and insert the new
ones, or fail leaving the prior set intact. -/
def replace_page (tenant : String) (pageId : Nat) (cws : List ChunkInput) (s : Store) :
    Except StoreError Store :=
  if tenant.isEmpty then .error .missingTenant
  else .ok { s with
    chunks := s.chunks.filter (fun c => !(chunkKey tenant pageId c)) ++ tagChunks tenant pageId cws }

/-- Modelled from the spec: `delete_page(tenant, page_id)` — cascade removal of
the tenant's page row and all of its chunks. -/
def delete_page (tenant : String) (pageId : Nat) (s : Store) : Except StoreError Store :=
  if tenant.isEmpty then .error .missingTenant
  else .ok
    { pages := s.pages.filter fun p => !(p.tenant == tenant && p.id == pageId)
      chunks := s.chunks.filter fun c => !(chunkKey tenant pageId c) }

end VectorStore

/-- The store a caller observes after a fallible operation: the new store on
success, the untouched prior store on failure. -/
def afterOp (s : Store) : Except StoreError Store → Store
  | .ok s' => s'
  | .error _ => s

/-! ## Chunker (spec section 4.2), modelled from the spec -/

/-- Strip leading and trailing whitespace from a character list. -/
def trimChars (cs : List Char) : List Char :=
  ((cs.dropWhile Char.isWhitespace).reverse.dropWhile Char.isWhitespace).reverse

/-- Sentence/paragraph boundary characters. -/
def isBoundary (c : Char) : Bool :=
  c == '.' || c == '!' || c == '?' || c == '\n'

/-- Split text into sentence/paragraph units, each boundary character closing a
unit. -/
def splitUnitsGo : List Char → List Char → List (List Char)
  | acc, [] => if acc.isEmpty then [] else [acc.reverse]
  | acc, c :: cs =>
    if isBoundary c then (c :: acc).reverse :: splitUnitsGo [] cs
    else splitUnitsGo (c :: acc) cs

/-- Units of a text. -/
def splitUnits (cs : List Char) : List (List Char) := splitUnitsGo [] cs

/-- Hard cuts: break a unit longer than the window into window-sized pieces. -/
def chunksOf (w : Nat) (cs : List Char) : List (List Char) :=
  if h : cs.length ≤ w ∨ w = 0 then [cs]
  else cs.take w :: chunksOf w (cs.drop w)
termination_by cs.length
decreasing_by simp only [List.length_drop]; omega

/-- Last `n` characters of a list. -/
def takeLast (n : Nat) (cs : List Char) : List Char := cs.drop (cs.length - n)

/-- Greedy packing of units into passages of at most `w` characters; each new
passage starts with the last `o` characters of its predecessor. -/
def packGo (w o : Nat) : List Char → List (List Char) → List (List Char)
  | cur, [] => if cur.isEmpty then [] else [cur]
  | cur, u :: us =>
    if cur.isEmpty then packGo w o u us
    else if cur.length + u.length ≤ w then packGo w o (cur ++ u) us
    else cur :: packGo w o (takeLast o cur ++ u) us

/-- Modelled from the spec: `chunk(text, window_size, overlap)` — deterministic
split of trimmed text on sentence boundaries where possible, hard cuts when a
unit exceeds the window, adjacent passages overlapping by `overlap` characters;
empty or whitespace-only input yields the empty sequence. -/
def chunk (text : String) (window_size overlap : Nat) : List String :=
  let w := max window_size 1
  let t := trimChars text.data
  if t.isEmpty then []
  else (packGo w overlap [] (((splitUnits t).map (chunksOf w)).flatten)).map String.mk

/-! ## Embedder (spec section 4.3), modelled from the spec -/

/-- Modelled from the spec: the external embedding provider as a deterministic
text-to-vector function (character codes), fixed for the process lifetime. -/
def embedText (s : String) : List Int := s.data.map fun c => (c.toNat : Int)

/-- Modelled from the spec: `embed(texts)` — one vector per input,
order-preserving. -/
def embed (texts : List String) : List (List Int) := texts.map embedText

/-! ## Retriever (spec section 4.5), modelled from the spec -/

/-- Near-identical passages: same page and overlapping character spans. -/
def spansOverlap (c d : Chunk) : Bool :=
  c.page_id == d.page_id &&
    max c.offset d.offset < min (c.offset + c.text.data.length) (d.offset + d.text.data.length)

/-- Deduplicate a score-descending list, keeping the highest-scoring instance
of each group of near-identical passages. -/
def dedupOverlaps : List (Chunk × Int) → List (Chunk × Int)
  | [] => []
  | x :: xs => x :: dedupOverlaps (xs.filter fun y => !(spansOverlap x.1 y.1))
termination_by l => l.length
decreasing_by simp only [List.length_cons]; exact Nat.lt_succ_of_le (List.length_filter_le _ _)

namespace Retriever

/-- Modelled from the spec: `search(tenant, question, k)` — embed the question,
query the VectorStore, deduplicate near-identical passages keeping the
highest-scoring instance. -/
def search (tenant question : String) (k : Nat) (s : Store) : List (Chunk × Int) :=
  let qv := embedText question
  dedupOverlaps ((VectorStore.query tenant qv k none s).map fun c => (c, dot qv c.vector))

end Retriever

/-! ## Synthesizer and ask endpoint (spec sections 4.6 and 6), modelled -/

/-- Modelled from the spec: the per-request debug QueryTrace
(question, retrieved chunk ids with scores, prompt, raw completion). -/
structure QueryTrace where
  question : String
  retrieved : List ((Nat × Nat) × Int)
  prompt : String
  raw_completion : String
deriving DecidableEq, Repr

/-- A source citation: the owning page's url and title. -/
structure SourceRef where
  url : String
  title : String
deriving DecidableEq, BEq, Repr

/-- Modelled from the spec: the ask response record (answer, sources, optional
trace). -/
structure AskResponse where
  answer : String
  sources : List SourceRef
  trace : Option QueryTrace
deriving DecidableEq, Repr

/-- Modelled from the spec: the prompt built from the retrieved passages and
the question. -/
def buildPrompt (question : String) (passages : List String) : String :=
  "Context:\n" ++ String.intercalate "\n" passages ++ "\nQuestion: " ++ question

/-- Modelled from the spec: the external generation provider
`complete(prompt) -> text`, as a deterministic function of the prompt. -/
def genComplete (prompt : String) : String := "ANSWER " ++ prompt

/-- Look up the citation for a tenant's page. -/
def pageRef (s : Store) (tenant : String) (pid : Nat) : SourceRef :=
  match s.pages.find? (fun p => p.id == pid && p.tenant == tenant) with
  | some p => ⟨p.url, p.title⟩
  | none => ⟨"", ""⟩

/-- Remove later duplicates from a citation list, keeping first occurrences. -/
def dedupRefs : List SourceRef → List SourceRef
  | [] => []
  | x :: xs => x :: dedupRefs (xs.filter fun y => !(y == x))
termination_by l => l.length
decreasing_by simp only [List.length_cons]; exact Nat.lt_succ_of_le (List.length_filter_le _ _)

/-- Modelled from the spec: the sources list — for each chunk used in the
prompt, its owning page's url and title, deduplicated by page. -/
def sourcesOf (s : Store) (tenant : String) (ranked : List (Chunk × Int)) : List SourceRef :=
  dedupRefs (ranked.map fun p => pageRef s tenant p.1.page_id)

/-- Modelled from the spec: the ask endpoint — retrieve, build the prompt, call
the generation provider once, and attach the trace exactly when `debug` is
true. -/
def askHandler (tenant question : String) (debug : Bool) (k : Nat) (s : Store) : AskResponse :=
  let ranked := Retriever.search tenant question k s
  let prompt := buildPrompt question (ranked.map fun p => p.1.text)
  let completion := genComplete prompt
  { answer := completion
    sources := sourcesOf s tenant ranked
    trace :=
      if debug then
        some ⟨question, ranked.map (fun p => ((p.1.page_id, p.1.sequence_index), p.2)),
              prompt, completion⟩
      else none }

/-! ## JobRunner (spec section 4.7), modelled from the spec -/

/-- Job lifecycle states. -/
inductive JobStatus
  | pending
  | running
  | done
  | failed
deriving DecidableEq, Repr

/-- Modelled from the spec: a Job row (id, tenant, url, status, captured
error). -/
structure Job where
  id : Nat
  tenant : String
  url : String
  status : JobStatus
  error : Option String
deriving DecidableEq, Repr

/-- Character-list version of a starts-with test. -/
def listStarts : List Char → List Char → Bool
  | [], _ => true
  | _ :: _, [] => false
  | p :: ps, c :: cs => p == c && listStarts ps cs

/-- A URL the modelled Fetcher accepts: an http or https scheme. -/
def isValidUrl (url : String) : Bool :=
  listStarts "https://".data url.data || listStarts "http://".data url.data

/-- Modelled from the spec: `fetch(url)` — title and extracted text for a
well-formed URL, a `FetchError` otherwise. -/
def fetchModel (url : String) : Except String (String × String) :=
  if isValidUrl url then .ok ("Title of " ++ url, "Text content of " ++ url ++ ".")
  else .error ("FetchError: " ++ url)

/-- Modelled from the spec: one Job's execution —
Fetcher then Chunker then Embedder then VectorStore.insert; any step's failure
marks this Job `failed` with a captured error and leaves the store untouched. -/
def runJob (s : Store) (j : Job) : Job × Store :=
  match fetchModel j.url with
  | .error e => ({ j with status := .failed, error := some e }, s)
  | .ok tt =>
    let passages := chunk tt.2 200 20
    let cws := passages.enum.map fun p => ChunkInput.mk p.2 (embedText p.2) p.1
    match VectorStore.insert j.tenant j.id cws s with
    | .error _ => ({ j with status := .failed, error := some "StoreError" }, s)
    | .ok s' =>
      ({ j with status := .done, error := none },
       { s' with pages := s'.pages ++ [⟨j.id, j.tenant, j.url, tt.1⟩] })

/-- Modelled from the spec: a scrape batch request — one pending Job per URL,
returning the acknowledgment immediately. -/
def startBatch (tenant : String) (urls : List String) : String × List Job :=
  ("Scraping started", urls.enum.map fun p => ⟨p.1, tenant, p.2, .pending, none⟩)

/-- Execute a batch's Jobs in order, threading the store through. -/
def runJobsGo (s : Store) : List Job → List Job × Store
  | [] => ([], s)
  | j :: js =>
    let r := runJob s j
    let rest := runJobsGo r.2 js
    (r.1 :: rest.1, rest.2)

/-! ## Reset session (spec section 6), modelled from the spec -/

/-- Modelled from the spec: `Reset session` clears all of the tenant's pages
and chunks. -/
def resetSession (tenant : String) (s : Store) : Store :=
  { pages := s.pages.filter fun p => !(p.tenant == tenant)
    chunks := s.chunks.filter fun c => !(c.tenant == tenant) }

/-- The backend's handling of a reset request: resolve the tenant from the
caller-supplied key (defaulting when absent) and clear that tenant's data. -/
def handleResetRequest (r : HttpRequest) (s : Store) : Store :=
  resetSession (effectiveTenant r) s

/-- A two-tenant store used to evaluate the reset request: one page and one
chunk each for tenants `alice` and `default`. -/
def demoStore : Store :=
  ⟨[⟨1, "alice", "https://a.example", "A"⟩, ⟨2, "default", "https://d.example", "D"⟩],
   [⟨1, "alice", 0, "alpha", [1], 0⟩, ⟨2, "default", 0, "beta", [2], 0⟩]⟩

/-! ## Helper lemmas -/

theorem mem_insertScored (x y : Chunk × Int) :
    ∀ l, y ∈ VectorStore.insertScored x l → y = x ∨ y ∈ l
  | [] => by simp [VectorStore.insertScored]
  | z :: zs => by
    simp only [VectorStore.insertScored]
    split
    · intro h
      simpa using h
    · intro h
      rcases List.mem_cons.mp h with h | h
      · right; simp [h]
      · rcases mem_insertScored x y zs h with h | h
        · left; exact h
        · right; simp [h]

theorem mem_sortScored (y : Chunk × Int) : ∀ l, y ∈ VectorStore.sortScored l → y ∈ l
  | [] => by simp [VectorStore.sortScored]
  | x :: xs => by
    intro h
    simp only [VectorStore.sortScored] at h
    rcases mem_insertScored x y _ h with h | h
    · simp [h]
    · have := mem_sortScored y xs h
      simp [this]

theorem query_mem {t : String} {v : List Int} {k : Nat} {ms : Option Int} {s : Store}
    {c : Chunk} (h : c ∈ VectorStore.query t v k ms s) : c ∈ s.chunks ∧ c.tenant = t := by
  have hp3 : c ∈ s.chunks.filter fun x => x.tenant == t := by
    cases ms with
    | none =>
      simp only [VectorStore.query] at h
      obtain ⟨p, hp, hpc⟩ := List.mem_map.mp h
      have hp2 := mem_sortScored p _ (List.mem_of_mem_take hp)
      obtain ⟨c', hc', hcc⟩ := List.mem_map.mp hp2
      have : c' = c := by
        have : (c', dot v c'.vector).1 = c := by rw [hcc, hpc]
        simpa using this
      exact this ▸ hc'
    | some m =>
      simp only [VectorStore.query] at h
      obtain ⟨p, hp, hpc⟩ := List.mem_map.mp h
      have hp2 := mem_sortScored p _ (List.mem_of_mem_take hp)
      have hp2' := (List.mem_filter.mp hp2).1
      obtain ⟨c', hc', hcc⟩ := List.mem_map.mp hp2'
      have : c' = c := by
        have : (c', dot v c'.vector).1 = c := by rw [hcc, hpc]
        simpa using this
      exact this ▸ hc'
  obtain ⟨hmem, hten⟩ := List.mem_filter.mp hp3
  exact ⟨hmem, eq_of_beq hten⟩

theorem chunkKey_tagChunks (t : String) (pid : Nat) (cws : List ChunkInput) :
    ∀ c ∈ tagChunks t pid cws, chunkKey t pid c = true := by
  intro c hc
  obtain ⟨p, _, hpe⟩ := List.mem_map.mp hc
  rw [← hpe]
  simp [chunkKey]

theorem dropWhile_whitespace_nil {cs : List Char} (h : ∀ c ∈ cs, c.isWhitespace) :
    cs.dropWhile Char.isWhitespace = [] := by
  induction cs with
  | nil => rfl
  | cons c cs ih =>
    simp only [List.dropWhile]
    rw [h c (by simp)]
    exact ih fun x hx => h x (by simp [hx])

theorem jsTruthy_eq_ne_empty : jsTruthy = fun s : String => decide (s ≠ "") := by
  funext s
  rcases eq_or_ne s "" with h | h
  · subst h; rfl
  · have hne : s.isEmpty = false := by
      rw [← Bool.not_eq_true]
      simpa [String.isEmpty_iff] using h
    simp [jsTruthy, hne, h]

/-! ## Claim theorems -/

/-- C6: `chunk(text, window_size, overlap)` is deterministic and idempotent:
calls with identical arguments produce identical, identically-ordered output
sequences. -/
theorem chunk_deterministic (t₁ t₂ : String) (w₁ w₂ o₁ o₂ : Nat)
    (ht : t₁ = t₂) (hw : w₁ = w₂) (ho : o₁ = o₂) :
    chunk t₁ w₁ o₁ = chunk t₂ w₂ o₂ := by
  rw [ht, hw, ho]

/-- Witness for C6 at a concrete text, window and overlap. -/
theorem chunk_deterministic_witness :
    chunk "Hello world. This is a test." 20 5 = chunk "Hello world. This is a test." 20 5 :=
  chunk_deterministic "Hello world. This is a test." "Hello world. This is a test." 20 20 5 5
    rfl rfl rfl

/-- C7: on empty or whitespace-only input, `chunk` returns the empty sequence
(and, being total, raises no error). -/
theorem chunk_whitespace_empty (text : String) (w o : Nat)
    (h : ∀ c ∈ text.data, c.isWhitespace) : chunk text w o = [] := by
  have hd := dropWhile_whitespace_nil h
  simp [chunk, trimChars, hd]

/-- Witness for C7 at a concrete whitespace-only input. -/
theorem chunk_whitespace_empty_witness : chunk "  \n\t " 20 5 = [] :=
  chunk_whitespace_empty "  \n\t " 20 5 (by decide)

/-- C5: the ask response's `trace` is present exactly when the request's debug
flag is true; when present it carries the retrieval scores, the exact prompt
handed to the generation provider, and that provider's raw completion; when
debug is false `trace` is omitted. -/
theorem ask_trace_iff_debug (t q : String) (k : Nat) (s : Store) :
    (∀ d : Bool, ((askHandler t q d k s).trace).isSome = d)
    ∧ (askHandler t q true k s).trace
        = some ⟨q,
            (Retriever.search t q k s).map (fun p => ((p.1.page_id, p.1.sequence_index), p.2)),
            buildPrompt q ((Retriever.search t q k s).map fun p => p.1.text),
            genComplete (buildPrompt q ((Retriever.search t q k s).map fun p => p.1.text))⟩
    ∧ (askHandler t q false k s).trace = none := by
  refine ⟨?_, rfl, rfl⟩
  intro d
  cases d <;> rfl

/-- C3: evaluation of the frontend reset call. ManagePanel's `reset` sends the
request with no `X-User` header (unlike its sibling `remove`), so the backend
resolves the tenant to `default`: on a store holding data for tenants `alice`
and `default`, the reset issued from an `alice` session leaves `alice`'s chunk
in place and deletes `default`'s chunk — it fails to clear the requesting
tenant's data and mutates another tenant's rows. -/
theorem reset_request_not_tenant_scoped :
    ManagePanel.resetRequest.headers.lookup "X-User" = none
    ∧ effectiveTenant ManagePanel.resetRequest = "default"
    ∧ effectiveTenant (ManagePanel.removeRequest "alice" 1) = "alice"
    ∧ (⟨1, "alice", 0, "alpha", [1], 0⟩ : Chunk)
        ∈ (handleResetRequest ManagePanel.resetRequest demoStore).chunks
    ∧ (⟨2, "default", 0, "beta", [2], 0⟩ : Chunk)
        ∉ (handleResetRequest ManagePanel.resetRequest demoStore).chunks
    ∧ (⟨1, "alice", "https://a.example", "A"⟩ : Page)
        ∈ (handleResetRequest ManagePanel.resetRequest demoStore).pages := by
  decide

/-- C10: the urls list the scrape panel sends is exactly the non-empty entries
of the three input fields (hence at most three); when all three are empty no
request is sent and the panel message is `Please enter at least one URL.`. -/
theorem scrape_submit_spec (user u1 u2 u3 : String) :
    ScrapePanel.submitUrls u1 u2 u3 = [u1, u2, u3].filter (fun s => decide (s ≠ ""))
    ∧ (ScrapePanel.submitUrls u1 u2 u3).length ≤ 3
    ∧ (u1 = "" → u2 = "" → u3 = "" →
        ScrapePanel.submit user u1 u2 u3 = (none, some "Please enter at least one URL."))
    ∧ (∀ x, x ∈ ScrapePanel.submitUrls u1 u2 u3 →
        ScrapePanel.submit user u1 u2 u3
          = (some ⟨ScrapePanel.scrapeHttpRequest user, ScrapePanel.submitUrls u1 u2 u3⟩, none)) := by
  refine ⟨?_, ?_, ?_, ?_⟩
  · rw [ScrapePanel.submitUrls, jsTruthy_eq_ne_empty]
  · exact List.length_filter_le _ _
  · intro h1 h2 h3
    subst h1; subst h2; subst h3
    rfl
  · intro x hx
    have hne : (ScrapePanel.submitUrls u1 u2 u3).isEmpty = false := by
      cases hl : ScrapePanel.submitUrls u1 u2 u3 with
      | nil => rw [hl] at hx; simp at hx
      | cons a l => rfl
    simp [ScrapePanel.submit, hne]

/-- Witness for C10: with all fields empty no request is produced and the
message is set; with one non-empty field the request carries exactly it. -/
theorem scrape_submit_spec_witness :
    ScrapePanel.submit "default" "" "" "" = (none, some "Please enter at least one URL.")
    ∧ ScrapePanel.submit "default" "https://valid.example" "" ""
        = (some ⟨ScrapePanel.scrapeHttpRequest "default", ["https://valid.example"]⟩, none) :=
  ⟨(scrape_submit_spec "default" "" "" "").2.2.1 rfl rfl rfl,
   ((scrape_submit_spec "default" "https://valid.example" "" "").2.2.2
      "https://valid.example" (by decide)).trans (by decide)⟩

/-- C1: a chunk inserted under tenant A is never returned by
`VectorStore.query` for a distinct tenant B, for any query vector, k,
min_score — and indeed for any store whatsoever. -/
theorem query_tenant_isolation (A B : String) (pid : Nat) (cws : List ChunkInput)
    (s s' : Store) (c : Chunk) (hAB : A ≠ B)
    (hins : VectorStore.insert A pid cws s = .ok s')
    (hc : c ∈ s'.chunks) (hnew : c ∉ s.chunks)
    (v : List Int) (k : Nat) (ms : Option Int) (s₂ : Store) :
    c ∉ VectorStore.query B v k ms s₂ := by
  intro hq
  have hA : c.tenant = A := by
    by_cases hA0 : A.isEmpty
    · simp [VectorStore.insert, hA0] at hins
    · simp only [VectorStore.insert, hA0, Bool.false_eq_true, if_false, Except.ok.injEq] at hins
      rw [← hins] at hc
      rcases List.mem_append.mp hc with h | h
      · exact absurd h hnew
      · obtain ⟨p, _, hpe⟩ := List.mem_map.mp h
        rw [← hpe]
  exact hAB (hA.symm.trans (query_mem hq).2)

/-- Witness for C1: the chunk inserted for `alice` is absent from a `bob`
query over the store the insert produced. -/
theorem query_tenant_isolation_witness :
    (⟨1, "alice", 0, "hello", [1, 2], 0⟩ : Chunk) ∉
      VectorStore.query "bob" [1, 0] 5 none ⟨[], [⟨1, "alice", 0, "hello", [1, 2], 0⟩]⟩ :=
  query_tenant_isolation "alice" "bob" 1 [⟨"hello", [1, 2], 0⟩] emptyStore
    ⟨[], [⟨1, "alice", 0, "hello", [1, 2], 0⟩]⟩ ⟨1, "alice", 0, "hello", [1, 2], 0⟩
    (by decide) (by rfl) (by decide) (by decide)
    [1, 0] 5 none ⟨[], [⟨1, "alice", 0, "hello", [1, 2], 0⟩]⟩

/-- C2: `replace_page` is atomic. The store a caller observes after the call
holds, for the tenant's page, exactly the new chunk set on success and exactly
the untouched prior set on failure (failure occurring on an empty tenant), so
no observable state mixes the two sets; chunks outside the tenant's page are
untouched either way. -/
theorem replace_page_atomic (t : String) (pid : Nat) (cws : List ChunkInput) (s : Store) :
    pageChunks t pid (afterOp s (VectorStore.replace_page t pid cws s))
      = (if t.isEmpty then pageChunks t pid s else tagChunks t pid cws)
    ∧ (afterOp s (VectorStore.replace_page t pid cws s)).chunks.filter
        (fun c => !(chunkKey t pid c))
      = s.chunks.filter (fun c => !(chunkKey t pid c)) := by
  by_cases ht : t.isEmpty
  · simp [VectorStore.replace_page, afterOp, ht]
  · have hkey := chunkKey_tagChunks t pid cws
    constructor
    · simp only [VectorStore.replace_page, ht, Bool.false_eq_true, if_false, afterOp,
        pageChunks, List.filter_append]
      rw [List.filter_eq_self.mpr hkey]
      simp [List.filter_filter]
    · simp only [VectorStore.replace_page, ht, Bool.false_eq_true, if_false, afterOp,
        List.filter_append]
      have h2 : (tagChunks t pid cws).filter (fun c => !(chunkKey t pid c)) = [] := by
        rw [List.filter_eq_nil_iff]
        intro a ha
        simp [hkey a ha]
      rw [h2]
      simp [List.filter_filter]

/-- C8: after `delete_page(tenant, page_id)`, any query for that tenant
returns no chunk referencing the deleted page. -/
theorem delete_page_no_deleted_chunks (t : String) (pid : Nat) (s s' : Store) (c : Chunk)
    (v : List Int) (k : Nat) (ms : Option Int)
    (hdel : VectorStore.delete_page t pid s = .ok s')
    (hq : c ∈ VectorStore.query t v k ms s') :
    c.page_id ≠ pid := by
  by_cases ht : t.isEmpty
  · simp [VectorStore.delete_page, ht] at hdel
  · simp only [VectorStore.delete_page, ht, Bool.false_eq_true, if_false, Except.ok.injEq]
      at hdel
    obtain ⟨hmem, hten⟩ := query_mem hq
    rw [← hdel] at hmem
    have hkey := (List.mem_filter.mp hmem).2
    intro hpid
    simp [chunkKey, hten, hpid] at hkey

/-- Witness for C8: deleting page 1 leaves a store whose query returns the
page-2 chunk, and the theorem yields that its page reference is not 1. -/
theorem delete_page_no_deleted_chunks_witness :
    (⟨2, "alice", 0, "beta", [1], 0⟩ : Chunk).page_id ≠ 1 :=
  delete_page_no_deleted_chunks "alice" 1
    ⟨[], [⟨1, "alice", 0, "alpha", [1], 0⟩, ⟨2, "alice", 0, "beta", [1], 0⟩]⟩
    ⟨[], [⟨2, "alice", 0, "beta", [1], 0⟩]⟩
    ⟨2, "alice", 0, "beta", [1], 0⟩ [1] 5 none (by rfl) (by decide)

/-- C9: for a tenant with zero indexed chunks, `Retriever.search` returns the
empty sequence (not an error) and the ask response is the graceful
empty-context answer with an empty sources list. -/
theorem empty_tenant_graceful (t q : String) (k : Nat) (d : Bool) (s : Store)
    (h : s.chunks.filter (fun c => c.tenant == t) = []) :
    Retriever.search t q k s = []
    ∧ (askHandler t q d k s).sources = []
    ∧ (askHandler t q d k s).answer = genComplete (buildPrompt q []) := by
  have hq : VectorStore.query t (embedText q) k none s = [] := by
    simp [VectorStore.query, h, VectorStore.sortScored]
  have hs : Retriever.search t q k s = [] := by
    simp [Retriever.search, hq, dedupOverlaps]
  refine ⟨hs, ?_, ?_⟩
  · simp [askHandler, hs, sourcesOf, dedupRefs]
  · simp [askHandler, hs]

/-- Witness for C9 on a store holding only another tenant's chunk. -/
theorem empty_tenant_graceful_witness :
    Retriever.search "alice" "hi" 5 ⟨[], [⟨1, "bob", 0, "x", [1], 0⟩]⟩ = []
    ∧ (askHandler "alice" "hi" false 5 ⟨[], [⟨1, "bob", 0, "x", [1], 0⟩]⟩).sources = []
    ∧ (askHandler "alice" "hi" false 5 ⟨[], [⟨1, "bob", 0, "x", [1], 0⟩]⟩).answer
        = genComplete (buildPrompt "hi" []) :=
  empty_tenant_graceful "alice" "hi" 5 false ⟨[], [⟨1, "bob", 0, "x", [1], 0⟩]⟩ (by decide)

/-- A job's terminal status after execution depends only on its own url and
tenant: a fetch failure (or rejected store write) marks this job `failed`,
otherwise it reaches `done`. -/
theorem runJob_status (s : Store) (j : Job) :
    (runJob s j).1.status
      = (if isValidUrl j.url && !j.tenant.isEmpty then JobStatus.done else JobStatus.failed) := by
  by_cases hv : isValidUrl j.url
  · by_cases ht : j.tenant.isEmpty
    · simp [runJob, fetchModel, hv, VectorStore.insert, ht]
    · simp [runJob, fetchModel, hv, VectorStore.insert, ht]
  · simp [runJob, fetchModel, hv]

/-- Executing a batch maps each job to its own terminal status, independent of
the sibling jobs it runs beside. -/
theorem runJobsGo_statuses :
    ∀ (jobs : List Job) (s : Store),
      ((runJobsGo s jobs).1.map Job.status)
        = jobs.map fun j =>
            if isValidUrl j.url && !j.tenant.isEmpty then JobStatus.done else JobStatus.failed
  | [], _ => rfl
  | j :: js, s => by
    simp only [runJobsGo, List.map_cons]
    rw [runJob_status, runJobsGo_statuses js _]

/-- Mapping a function of the element part over an enumerated list. -/
theorem map_enum_snd {α β : Type} (F : α → β) (l : List α) :
    l.enum.map (fun p => F p.2) = l.map F := by
  rw [show (fun p : Nat × α => F p.2) = F ∘ Prod.snd from rfl, ← List.map_map,
    List.enum_map_snd]

/-- C4: the batch-start call acknowledges success regardless of the submitted
URLs; each job's terminal status is a function of that job's own URL (and
tenant) alone, so one job's failure never changes a sibling's status; on the
spec's example batch the valid URL's job ends `done` and the invalid one's
`failed`. -/
theorem batch_error_isolation (tenant : String) (urls : List String) (s : Store) :
    (startBatch tenant urls).1 = "Scraping started"
    ∧ ((runJobsGo s (startBatch tenant urls).2).1.map Job.status)
        = urls.map (fun u =>
            if isValidUrl u && !tenant.isEmpty then JobStatus.done else JobStatus.failed)
    ∧ ((runJobsGo emptyStore
          (startBatch "default" ["https://valid.example", "not-a-url"]).2).1.map Job.status)
        = [JobStatus.done, JobStatus.failed] := by
  refine ⟨rfl, ?_, ?_⟩
  · rw [runJobsGo_statuses]
    simp only [startBatch, List.map_map]
    exact map_enum_snd
      (fun u => if isValidUrl u && !tenant.isEmpty then JobStatus.done else JobStatus.failed) urls
  · rw [runJobsGo_statuses]
    decide

end SmartSummarizer
